import Mathlib

/-!
Verification of the OpenPose pose renderer
(`src/openpose/pose/poseRenderer.cpp`).

The file shallowly embeds the two pieces of logic of that translation
unit:

* `createPartToName` — the label-table builder, which starts from the
  per-model body-part name map and synthesizes `"A->B(X)"` / `"A->B(Y)"`
  entries at the affinity channel indices of every limb pair;
* `PoseRenderer::renderPose` — the per-frame render dispatcher, which
  selects one rendering kernel from the atomically read `elementToRender`
  value, resolves the human-readable label, and orchestrates the
  host/device transfers.

`std::map<unsigned int, std::string>` is embedded as an association list
with insert-or-assign semantics (`mapInsert`) and first-match lookup
(`mapFind?`); `.at` lookups that can throw become `Option`-valued
lookups whose `none` results flow to the surrounding `catch` block.
Floats (`scaleNetToOutput`, the alpha weights) are embedded as `ℚ`:
the dispatcher only ever compares them against the sentinel `-1` and
passes them through, so no floating-point arithmetic is involved.
The rendering kernels and CUDA copies are external collaborators; the
embedding records each invocation (with its scalar arguments) in a
`RenderOutcome` effect record instead of performing it.
-/

namespace PoseRendererSpec

/-- Lookup in an association list, first match wins.  Embeds
`std::map::at` / `std::map::find` (a `std::map` never holds duplicate
keys, so first-match agrees with the map lookup). -/
def mapFind? (m : List (Nat × String)) (k : Nat) : Option String :=
  match m with
  | [] => none
  | (k', v) :: rest => if k' = k then some v else mapFind? rest k

/-- Insert-or-assign in an association list: replaces the value at an
existing key in place, appends a fresh key at the end.  Embeds
`std::map::operator[]` followed by assignment. -/
def mapInsert (m : List (Nat × String)) (k : Nat) (v : String) : List (Nat × String) :=
  match m with
  | [] => [(k, v)]
  | (k', v') :: rest => if k' = k then (k, v) :: rest else (k', v') :: mapInsert rest k v

/-- The keys of an association list. -/
def mapKeys (m : List (Nat × String)) : List Nat := m.map Prod.fst

/-- Static topology data for one pose model: the body-part name map
(`getPoseBodyPartMapping(poseModel)`), the flattened limb-pair sequence
(`POSE_BODY_PART_PAIRS[(int)poseModel]`, endpoints at positions
`2k, 2k+1`) and the flattened affinity-channel sequence
(`POSE_MAP_IDX[(int)poseModel]`, aligned with the pairs). -/
structure PoseTopology where
  partToName : List (Nat × String)
  bodyPartPairs : List Nat
  mapIdx : List Nat
  deriving Repr

/-- Loop body of `createPartToName` (poseRenderer.cpp lines 21–29),
consuming the limb-pair and map-idx sequences two elements per
iteration exactly as the `bodyPart += 2` loop walks them with `.at`.
`none` is a thrown `std::out_of_range`: an odd trailing pair index, a
missing map-idx entry, or a missing endpoint name.  Note the `(Y)` line
of the C++ re-reads `partToName.at(A)` / `.at(B)` after the `(X)` entry
has already been inserted, so the second pair of lookups runs on the
updated map `m1`. -/
def createPartToNameGo : List Nat → List Nat → List (Nat × String) →
    Option (List (Nat × String))
  | [], _, m => some m
  | [_], _, _ => none
  | _ :: _ :: _, [], _ => none
  | _ :: _ :: _, [_], _ => none
  | a :: b :: restPairs, mA :: mB :: restMap, m =>
    match mapFind? m a, mapFind? m b with
    | some nameA, some nameB =>
      let m1 := mapInsert m mA (nameA ++ "->" ++ nameB ++ "(X)")
      match mapFind? m1 a, mapFind? m1 b with
      | some nameA2, some nameB2 =>
        createPartToNameGo restPairs restMap
          (mapInsert m1 mB (nameA2 ++ "->" ++ nameB2 ++ "(Y)"))
      | _, _ => none
    | _, _ => none

/-- `op::createPartToName` (poseRenderer.cpp lines 11–38): builds the
label table from the topology.  The first component records whether the
`catch` block ran (`error(...)` reported); in that case the function
returns the empty table. -/
def createPartToName (t : PoseTopology) : Bool × List (Nat × String) :=
  match createPartToNameGo t.bodyPartPairs t.mapIdx t.partToName with
  | some m => (false, m)
  | none => (true, [])

/-- Characters of a string up to (excluding) the first `'('`. -/
def takeUntilParen : List Char → List Char
  | [] => []
  | c :: rest => if c = '(' then [] else c :: takeUntilParen rest

/-- Embeds `s.substr(0, s.find("("))` (poseRenderer.cpp line 194):
everything from the first `'('` onward is dropped; if there is no
`'('`, `find` returns `npos` and `substr` keeps the whole string. -/
def stripFromParen (s : String) : String := ⟨takeUntilParen s.data⟩

/-- One invocation of an external rendering kernel, with the scalar
arguments the dispatcher passes (device/host pointers are carried
implicitly by the effect itself). -/
inductive KernelCall where
  /-- `renderPoseGpu` (line 161). -/
  | skeleton (poseModel numberPeople : Nat) (outputSize : Nat × Nat)
      (googlyEyes blend : Bool) (alphaKeypoint : ℚ)
  /-- `renderBodyPartGpu` (lines 171–172). -/
  | bodyPart (poseModel : Nat) (outputSize heatMapsSize : Nat × Nat)
      (scaleNetToOutput : ℚ) (part : Nat) (alpha : ℚ)
  /-- `renderBodyPartsGpu` (lines 178–179). -/
  | bodyParts (poseModel : Nat) (outputSize heatMapsSize : Nat × Nat)
      (scaleNetToOutput : ℚ) (alpha : ℚ)
  /-- `renderPartAffinityFieldsGpu` (lines 185–186). -/
  | partAffinityFields (poseModel : Nat) (outputSize heatMapsSize : Nat × Nat)
      (scaleNetToOutput : ℚ) (alpha : ℚ)
  /-- `renderPartAffinityFieldGpu` (lines 195–196). -/
  | partAffinityField (poseModel : Nat) (outputSize heatMapsSize : Nat × Nat)
      (scaleNetToOutput : ℚ) (part : Nat) (alpha : ℚ)
  deriving DecidableEq, Repr

/-- The observable outcome of one `renderPose` call: the returned
`(elementRendered, elementRenderedName)` pair and the side effects the
call performed. -/
structure RenderOutcome where
  /-- The `std::pair<int, std::string>` return value; `(-1, "")` on the
  catch path. -/
  returned : Int × String
  /-- Whether `error(...)` was reached (an exception was thrown and
  caught at the function boundary). -/
  errorReported : Bool
  /-- Whether `cpuToGpuMemoryIfNotCopiedYet(outputData.getPtr())`
  (line 152) ran, i.e. the frame upload was requested. -/
  frameUploaded : Bool
  /-- Whether the `cudaMemcpy` of the keypoints into `pGpuPose`
  (line 160) ran. -/
  keypointUploaded : Bool
  /-- The rendering kernel invoked this frame, if any. -/
  kernel : Option KernelCall
  /-- Whether `gpuToCpuMemoryIfLastRenderer(outputData.getPtr())`
  (line 201) ran, i.e. the device-to-host readback was requested. -/
  readback : Bool
  deriving DecidableEq, Repr

/-- The renderer state `renderPose` reads: the per-model constants
fixed at construction, the base-renderer alpha weights, the blend and
googly-eyes flags, and the value loaded from the atomic
`spElementToRender`.  `numberBodyParts` is
`POSE_NUMBER_BODY_PARTS[(int)mPoseModel]`, `mapIdx` is
`POSE_MAP_IDX[(int)mPoseModel]`, and `partIndexToName` is the
`mPartIndexToName` label table. -/
structure RendererState where
  poseModel : Nat
  numberBodyParts : Nat
  mapIdx : List Nat
  partIndexToName : List (Nat × String)
  blendOriginalFrame : Bool
  showGooglyEyes : Bool
  alphaKeypoint : ℚ
  alphaHeatMap : ℚ
  elementToRender : Nat
  outputSize : Nat × Nat
  heatMapsSize : Nat × Nat
  deriving Repr

/-- Shared `errorReported := true` outcome of the `catch` block
(lines 206–210): `error(e.what(), ...)` reports and the function
returns `(-1, "")`.  Effects performed before the throw are passed in. -/
def caughtOutcome (frameUploaded : Bool) : RenderOutcome :=
  { returned := (-1, "")
    errorReported := true
    frameUploaded := frameUploaded
    keypointUploaded := false
    kernel := none
    readback := false }

/-- `PoseRenderer::renderPose` (poseRenderer.cpp lines 137–211).
`outputEmpty` is `outputData.empty()`; `numberPeople` is
`poseKeypoints.getSize(0)`.  The keypoint `Array` itself is modelled
from the spec (its class is not part of this unit): §3 fixes its shape
as `numberPeople × numberBodyParts × 3` floats, so
`poseKeypoints.empty()` holds exactly when that volume is zero. -/
def renderPose (st : RendererState) (outputEmpty : Bool) (numberPeople : Nat)
    (scaleNetToOutput : ℚ) : RenderOutcome :=
  if outputEmpty then
    caughtOutcome false
  else
    let elementRendered := st.elementToRender
    if numberPeople > 0 ∨ elementRendered ≠ 0 ∨ st.blendOriginalFrame = false then
      let numberBodyPartsPlusBkg := st.numberBodyParts + 1
      if elementRendered = 0 then
        { returned := ((elementRendered : Int), "")
          errorReported := false
          frameUploaded := true
          keypointUploaded := decide (numberPeople * st.numberBodyParts * 3 ≠ 0)
          kernel := some (.skeleton st.poseModel numberPeople st.outputSize
            st.showGooglyEyes st.blendOriginalFrame st.alphaKeypoint)
          readback := true }
      else if scaleNetToOutput = -1 then
        caughtOutcome true
      else if elementRendered ≤ numberBodyPartsPlusBkg then
        match mapFind? st.partIndexToName (elementRendered - 1) with
        | none => caughtOutcome true
        | some name =>
          { returned := ((elementRendered : Int), name)
            errorReported := false
            frameUploaded := true
            keypointUploaded := false
            kernel := some (.bodyPart st.poseModel st.outputSize st.heatMapsSize
              scaleNetToOutput elementRendered
              (if st.blendOriginalFrame then st.alphaHeatMap else 1))
            readback := true }
      else if elementRendered = numberBodyPartsPlusBkg + 1 then
        { returned := ((elementRendered : Int), "Heatmaps")
          errorReported := false
          frameUploaded := true
          keypointUploaded := false
          kernel := some (.bodyParts st.poseModel st.outputSize st.heatMapsSize
            scaleNetToOutput
            (if st.blendOriginalFrame then st.alphaHeatMap else 1))
          readback := true }
      else if elementRendered = numberBodyPartsPlusBkg + 2 then
        { returned := ((elementRendered : Int), "PAFs (Part Affinity Fields)")
          errorReported := false
          frameUploaded := true
          keypointUploaded := false
          kernel := some (.partAffinityFields st.poseModel st.outputSize st.heatMapsSize
            scaleNetToOutput
            (if st.blendOriginalFrame then st.alphaHeatMap else 1))
          readback := true }
      else
        let affinityPart := (elementRendered - numberBodyPartsPlusBkg - 3) * 2
        match st.mapIdx[affinityPart]? with
        | none => caughtOutcome true
        | some affinityPartMapped =>
          match mapFind? st.partIndexToName affinityPartMapped with
          | none => caughtOutcome true
          | some rawName =>
            { returned := ((elementRendered : Int), stripFromParen rawName)
              errorReported := false
              frameUploaded := true
              keypointUploaded := false
              kernel := some (.partAffinityField st.poseModel st.outputSize st.heatMapsSize
                scaleNetToOutput affinityPartMapped
                (if st.blendOriginalFrame then st.alphaHeatMap else 1))
              readback := true }
    else
      { returned := ((elementRendered : Int), "")
        errorReported := false
        frameUploaded := false
        keypointUploaded := false
        kernel := none
        readback := true }

/-- The five-part demonstration topology of §8 of the spec: part names
`nose`, `neck`, …, one limb pair `(0, 1)`, affinity channels `(5, 6)`. -/
def demoTopology : PoseTopology :=
  ⟨[(0, "nose"), (1, "neck"), (2, "part2"), (3, "part3"), (4, "part4")], [0, 1], [5, 6]⟩

/-- A concrete renderer state over `demoTopology` (`numberBodyParts = 2`,
so the channel boundary `B = numberBodyParts + 1 = 3`), used to
instantiate the theorems below on concrete inputs. -/
def demoState : RendererState :=
  { poseModel := 1
    numberBodyParts := 2
    mapIdx := [5, 6]
    partIndexToName := (createPartToName demoTopology).2
    blendOriginalFrame := true
    showGooglyEyes := false
    alphaKeypoint := 3/5
    alphaHeatMap := 7/10
    elementToRender := 0
    outputSize := (656, 368)
    heatMapsSize := (82, 46) }

/-- A minimal two-part topology with one limb pair and fresh affinity
channels `2, 3`, used to check the label-table size. -/
def pairTopology : PoseTopology :=
  ⟨[(0, "a"), (1, "b")], [0, 1], [2, 3]⟩

/-- No character of `takeUntilParen l` is `'('`. -/
theorem takeUntilParen_no_paren (l : List Char) : '(' ∉ takeUntilParen l := by
  induction l with
  | nil => simp [takeUntilParen]
  | cons c rest ih =>
    by_cases h : c = '('
    · simp [takeUntilParen, h]
    · simp only [takeUntilParen, if_neg h, List.mem_cons]
      rintro (h' | h')
      · exact h h'.symm
      · exact ih h'

/-- C5: a call to `renderPose` with an empty output buffer reports an
error, invokes no kernel, performs no upload, memcpy or readback, and
returns the sentinel pair `(-1, "")` instead of propagating the
exception. -/
theorem renderPose_empty_output (st : RendererState) (numberPeople : Nat)
    (scaleNetToOutput : ℚ) :
    renderPose st true numberPeople scaleNetToOutput =
      { returned := (-1, "")
        errorReported := true
        frameUploaded := false
        keypointUploaded := false
        kernel := none
        readback := false } := rfl

/-- C6: a call to `renderPose` in a non-skeleton mode
(`elementToRender ≠ 0`) with the sentinel scale `-1` and a non-empty
output buffer reports an error, invokes no kernel, skips the readback
(the frame's render is aborted), and returns `(-1, "")`. -/
theorem renderPose_invalid_scale (st : RendererState) (numberPeople : Nat)
    (h : st.elementToRender ≠ 0) :
    (renderPose st false numberPeople (-1)).errorReported = true ∧
    (renderPose st false numberPeople (-1)).kernel = none ∧
    (renderPose st false numberPeople (-1)).readback = false ∧
    (renderPose st false numberPeople (-1)).returned = (-1, "") := by
  simp [renderPose, caughtOutcome, h]

/-- C6 witness: the invalid-scale boundary on the concrete demo state
with `elementToRender = 1`. -/
theorem renderPose_invalid_scale_witness :
    (renderPose { demoState with elementToRender := 1 } false 1 (-1)).errorReported = true ∧
    (renderPose { demoState with elementToRender := 1 } false 1 (-1)).kernel = none ∧
    (renderPose { demoState with elementToRender := 1 } false 1 (-1)).readback = false ∧
    (renderPose { demoState with elementToRender := 1 } false 1 (-1)).returned = (-1, "") :=
  renderPose_invalid_scale { demoState with elementToRender := 1 } 1 (by decide)

/-- C10: with `elementToRender = 0`, an empty keypoint set
(`numberPeople = 0`) and `blendOriginalFrame = true`, the whole GPU
block is skipped — no kernel, no frame upload, no keypoint memcpy —
only the conditional readback runs, and the call returns `(0, "")`. -/
theorem renderPose_skip_gpu_block (st : RendererState) (scaleNetToOutput : ℚ)
    (h0 : st.elementToRender = 0) (hb : st.blendOriginalFrame = true) :
    renderPose st false 0 scaleNetToOutput =
      { returned := (0, "")
        errorReported := false
        frameUploaded := false
        keypointUploaded := false
        kernel := none
        readback := true } := by
  simp [renderPose, h0, hb]

/-- C10 witness: the GPU block is skipped on the concrete demo state
(`elementToRender = 0`, blending on, no people). -/
theorem renderPose_skip_gpu_block_witness :
    renderPose demoState false 0 2 =
      { returned := (0, "")
        errorReported := false
        frameUploaded := false
        keypointUploaded := false
        kernel := none
        readback := true } :=
  renderPose_skip_gpu_block demoState 2 rfl rfl

/-- C4 counterexample: the claim asserts that every `renderPose` call
with `elementToRender = 0` and a non-empty output buffer invokes the
skeleton-rendering kernel; on `demoState` (blending on) with zero
people the GPU block of lines 150–199 is skipped and no kernel is
invoked at all. -/
theorem renderPose_skeleton_counterexample :
    (renderPose demoState false 0 2).kernel = none := rfl

/-- C4 (amended): with `elementToRender = 0` and a non-empty output
buffer, the returned pair is `(0, "")`, the keypoint memcpy into the
GPU pose buffer runs iff the keypoint set is non-empty, and the
skeleton kernel — with pose model, person count, output size,
googly-eyes flag, blend flag and keypoint alpha — is invoked iff
`numberPeople > 0` or blending is off (otherwise the GPU block is
skipped and no kernel runs). -/
theorem renderPose_skeleton_mode (st : RendererState) (numberPeople : Nat)
    (scaleNetToOutput : ℚ) (h : st.elementToRender = 0) :
    (renderPose st false numberPeople scaleNetToOutput).returned = (0, "") ∧
    ((renderPose st false numberPeople scaleNetToOutput).keypointUploaded = true ↔
      numberPeople * st.numberBodyParts * 3 ≠ 0) ∧
    (renderPose st false numberPeople scaleNetToOutput).kernel =
      (if numberPeople > 0 ∨ st.blendOriginalFrame = false then
        some (.skeleton st.poseModel numberPeople st.outputSize st.showGooglyEyes
          st.blendOriginalFrame st.alphaKeypoint)
      else none) := by
  by_cases hc : numberPeople > 0 ∨ st.blendOriginalFrame = false
  · simp [renderPose, h, hc]
  · push_neg at hc
    obtain ⟨hp, hb⟩ := hc
    have hp0 : numberPeople = 0 := by omega
    simp [renderPose, h, hp0, hb]

/-- C4 witness: skeleton mode on the concrete demo state with one
person — the keypoint memcpy runs and the skeleton kernel is invoked
with the demo state's flags and keypoint alpha. -/
theorem renderPose_skeleton_mode_witness :
    (renderPose demoState false 1 2).returned = (0, "") ∧
    ((renderPose demoState false 1 2).keypointUploaded = true ↔
      1 * demoState.numberBodyParts * 3 ≠ 0) ∧
    (renderPose demoState false 1 2).kernel =
      (if 1 > 0 ∨ demoState.blendOriginalFrame = false then
        some (.skeleton demoState.poseModel 1 demoState.outputSize demoState.showGooglyEyes
          demoState.blendOriginalFrame demoState.alphaKeypoint)
      else none) :=
  renderPose_skeleton_mode demoState 1 2 rfl

/-- C1: for `1 ≤ elementToRender ≤ numberBodyParts + 1` with a
non-sentinel scale and a non-empty output buffer, `renderPose` returns
exactly the label-table entry at key `elementToRender - 1` and invokes
the single-part heatmap kernel with channel `elementToRender` and alpha
`alphaHeatMap` when blending, else `1`. -/
theorem renderPose_single_part (st : RendererState) (numberPeople : Nat)
    (scaleNetToOutput : ℚ) (lbl : String)
    (h1 : 1 ≤ st.elementToRender) (h2 : st.elementToRender ≤ st.numberBodyParts + 1)
    (hscale : scaleNetToOutput ≠ -1)
    (hlbl : mapFind? st.partIndexToName (st.elementToRender - 1) = some lbl) :
    (renderPose st false numberPeople scaleNetToOutput).returned =
      ((st.elementToRender : Int), lbl) ∧
    (renderPose st false numberPeople scaleNetToOutput).kernel =
      some (.bodyPart st.poseModel st.outputSize st.heatMapsSize scaleNetToOutput
        st.elementToRender
        (if st.blendOriginalFrame then st.alphaHeatMap else 1)) := by
  have hne : st.elementToRender ≠ 0 := by omega
  simp [renderPose, hne, hscale, h2, hlbl]

/-- C1 witness: `elementToRender = 1` on the concrete demo state
resolves the label-table entry at key `0`, namely `"nose"`. -/
theorem renderPose_single_part_witness :
    (renderPose { demoState with elementToRender := 1 } false 1 2).returned =
      (1, "nose") ∧
    (renderPose { demoState with elementToRender := 1 } false 1 2).kernel =
      some (.bodyPart 1 (656, 368) (82, 46) 2 1 (7/10)) := by
  have h := renderPose_single_part { demoState with elementToRender := 1 } 1 2 "nose"
    (by decide) (by decide) (by decide) (by decide)
  simpa using h

/-- C2: with a non-sentinel scale and non-empty output buffer,
`elementToRender = numberBodyParts + 2` yields the literal label
`"Heatmaps"` and the combined-heatmap kernel, while
`elementToRender = numberBodyParts + 3` yields the literal label
`"PAFs (Part Affinity Fields)"` and the combined-affinity kernel. -/
theorem renderPose_combined_modes (st : RendererState) (numberPeople : Nat)
    (scaleNetToOutput : ℚ) (hscale : scaleNetToOutput ≠ -1) :
    (st.elementToRender = st.numberBodyParts + 2 →
      (renderPose st false numberPeople scaleNetToOutput).returned =
        ((st.elementToRender : Int), "Heatmaps") ∧
      (renderPose st false numberPeople scaleNetToOutput).kernel =
        some (.bodyParts st.poseModel st.outputSize st.heatMapsSize scaleNetToOutput
          (if st.blendOriginalFrame then st.alphaHeatMap else 1))) ∧
    (st.elementToRender = st.numberBodyParts + 3 →
      (renderPose st false numberPeople scaleNetToOutput).returned =
        ((st.elementToRender : Int), "PAFs (Part Affinity Fields)") ∧
      (renderPose st false numberPeople scaleNetToOutput).kernel =
        some (.partAffinityFields st.poseModel st.outputSize st.heatMapsSize scaleNetToOutput
          (if st.blendOriginalFrame then st.alphaHeatMap else 1))) := by
  constructor
  · intro h
    have hne : st.elementToRender ≠ 0 := by omega
    have hgt : ¬ st.elementToRender ≤ st.numberBodyParts + 1 := by omega
    simp [renderPose, hne, hscale, hgt, h]
  · intro h
    have hne : st.elementToRender ≠ 0 := by omega
    have hgt : ¬ st.elementToRender ≤ st.numberBodyParts + 1 := by omega
    have hne1 : st.elementToRender ≠ st.numberBodyParts + 1 + 1 := by omega
    simp [renderPose, hne, hscale, hgt, hne1, h]

/-- C2 witness: on the concrete demo state (`numberBodyParts = 2`),
`elementToRender = 4` gives `"Heatmaps"` and `elementToRender = 5`
gives `"PAFs (Part Affinity Fields)"`. -/
theorem renderPose_combined_modes_witness :
    ((renderPose { demoState with elementToRender := 4 } false 1 2).returned =
        (4, "Heatmaps") ∧
      (renderPose { demoState with elementToRender := 4 } false 1 2).kernel =
        some (.bodyParts 1 (656, 368) (82, 46) 2 (7/10))) ∧
    ((renderPose { demoState with elementToRender := 5 } false 1 2).returned =
        (5, "PAFs (Part Affinity Fields)") ∧
      (renderPose { demoState with elementToRender := 5 } false 1 2).kernel =
        some (.partAffinityFields 1 (656, 368) (82, 46) 2 (7/10))) := by
  constructor
  · have h := (renderPose_combined_modes { demoState with elementToRender := 4 } 1 2
      (by decide)).1 (by decide)
    simpa using h
  · have h := (renderPose_combined_modes { demoState with elementToRender := 5 } 1 2
      (by decide)).2 (by decide)
    simpa using h

/-- C3: for `elementToRender > numberBodyParts + 3` (i.e. `> B + 2`
with `B = numberBodyParts + 1`), with a non-sentinel scale and
non-empty output buffer, `renderPose` reads `mapIdxA` at position
`(elementToRender - B - 3) * 2` of the affinity-channel sequence,
returns the label-table entry at `mapIdxA` stripped from the first
`'('` onward — so the returned label contains no `'('` — and invokes
the single-affinity kernel with channel `mapIdxA`. -/
theorem renderPose_single_affinity (st : RendererState) (numberPeople : Nat)
    (scaleNetToOutput : ℚ) (mapIdxA : Nat) (rawName : String)
    (h : st.numberBodyParts + 3 < st.elementToRender)
    (hscale : scaleNetToOutput ≠ -1)
    (hmap : st.mapIdx[(st.elementToRender - (st.numberBodyParts + 1) - 3) * 2]? =
      some mapIdxA)
    (hlbl : mapFind? st.partIndexToName mapIdxA = some rawName) :
    (renderPose st false numberPeople scaleNetToOutput).returned =
      ((st.elementToRender : Int), stripFromParen rawName) ∧
    '(' ∉ ((renderPose st false numberPeople scaleNetToOutput).returned.2).data ∧
    (renderPose st false numberPeople scaleNetToOutput).kernel =
      some (.partAffinityField st.poseModel st.outputSize st.heatMapsSize
        scaleNetToOutput mapIdxA
        (if st.blendOriginalFrame then st.alphaHeatMap else 1)) := by
  have hne : st.elementToRender ≠ 0 := by omega
  have hgt : ¬ st.elementToRender ≤ st.numberBodyParts + 1 := by omega
  have hne1 : st.elementToRender ≠ st.numberBodyParts + 1 + 1 := by omega
  have hne2 : st.elementToRender ≠ st.numberBodyParts + 1 + 2 := by omega
  refine ⟨?_, ?_, ?_⟩ <;>
    simp [renderPose, hne, hscale, hgt, hne1, hne2, hmap, hlbl, stripFromParen,
      takeUntilParen_no_paren]

/-- C3 witness: `elementToRender = 6` on the concrete demo state
(`B = 3`) reads `mapIdx[0] = 5`, strips `"nose->neck(X)"` to
`"nose->neck"`, and invokes the single-affinity kernel with channel 5. -/
theorem renderPose_single_affinity_witness :
    (renderPose { demoState with elementToRender := 6 } false 1 2).returned =
      (6, stripFromParen "nose->neck(X)") ∧
    '(' ∉ ((renderPose { demoState with elementToRender := 6 } false 1 2).returned.2).data ∧
    (renderPose { demoState with elementToRender := 6 } false 1 2).kernel =
      some (.partAffinityField 1 (656, 368) (82, 46) 2 5 (7/10)) := by
  have h := renderPose_single_affinity { demoState with elementToRender := 6 } 1 2 5
    "nose->neck(X)" (by decide) (by decide) (by decide) (by decide)
  simpa using h

/-- C8: on the §8 scenario — the five-name `demoTopology` with limb
pair `(0, 1)` and channels `(5, 6)`, channel boundary `B = 3` —
`elementToRender = 6` enters the single-affinity branch
(`affinityPart = (6 - 3 - 3) * 2 = 0`, `mapIdxA = 5`) and returns the
stripped label `"nose->neck"`; `elementToRender = 5` does not reach the
single-affinity branch (it is the combined-affinity literal instead),
while a direct label-table lookup at key 5 returns `"nose->neck(X)"`. -/
theorem renderPose_scenario :
    (renderPose { demoState with elementToRender := 6 } false 1 2).returned =
      (6, "nose->neck") ∧
    (renderPose { demoState with elementToRender := 6 } false 1 2).kernel =
      some (.partAffinityField 1 (656, 368) (82, 46) 2 5 (7/10)) ∧
    (renderPose { demoState with elementToRender := 5 } false 1 2).kernel =
      some (.partAffinityFields 1 (656, 368) (82, 46) 2 (7/10)) ∧
    (renderPose { demoState with elementToRender := 5 } false 1 2).returned.2 =
      "PAFs (Part Affinity Fields)" ∧
    mapFind? (createPartToName demoTopology).2 5 = some "nose->neck(X)" := by
  refine ⟨rfl, rfl, rfl, rfl, rfl⟩

/-- `mapFind?` returns `none` exactly on the missing keys. -/
theorem mapFind?_eq_none_iff (m : List (Nat × String)) (k : Nat) :
    mapFind? m k = none ↔ k ∉ mapKeys m := by
  induction m with
  | nil => simp [mapFind?, mapKeys]
  | cons p rest ih =>
    obtain ⟨k', v⟩ := p
    by_cases h : k' = k
    · subst h
      simp [mapFind?, mapKeys]
    · simp only [mapFind?, if_neg h, mapKeys, List.map_cons, List.mem_cons]
      rw [ih]
      constructor
      · rintro hk (h1 | h2)
        · exact h h1.symm
        · exact hk h2
      · intro hk h2
        exact hk (Or.inr h2)

/-- A present key always has a `mapFind?` value. -/
theorem mapFind?_of_mem (m : List (Nat × String)) (k : Nat) (h : k ∈ mapKeys m) :
    ∃ v, mapFind? m k = some v := by
  cases hf : mapFind? m k with
  | none => exact absurd h ((mapFind?_eq_none_iff m k).1 hf)
  | some v => exact ⟨v, rfl⟩

/-- `mapInsert` grows the list by one entry exactly on a fresh key. -/
theorem length_mapInsert (m : List (Nat × String)) (k : Nat) (v : String) :
    (mapInsert m k v).length =
      if k ∈ mapKeys m then m.length else m.length + 1 := by
  induction m with
  | nil => simp [mapInsert, mapKeys]
  | cons p rest ih =>
    obtain ⟨k', v'⟩ := p
    by_cases h : k' = k
    · subst h
      simp [mapInsert, mapKeys]
    · have h' : ¬ k = k' := fun hk => h hk.symm
      simp only [mapInsert, if_neg h, List.length_cons, ih, mapKeys, List.map_cons,
        List.mem_cons, h', false_or]
      split <;> omega

/-- The key set after `mapInsert` is the old key set plus the new key. -/
theorem mem_mapKeys_mapInsert (m : List (Nat × String)) (k : Nat) (v : String)
    (x : Nat) :
    x ∈ mapKeys (mapInsert m k v) ↔ x = k ∨ x ∈ mapKeys m := by
  induction m with
  | nil => simp [mapInsert, mapKeys]
  | cons p rest ih =>
    obtain ⟨k', v'⟩ := p
    by_cases h : k' = k
    · subst h
      simp [mapInsert, mapKeys]
    · simp only [mapInsert, if_neg h, mapKeys, List.map_cons, List.mem_cons, ih]
      tauto

/-- Running the label-synthesis loop from any intermediate table `m`:
if the pair and channel worklists have equal even length, every pair
endpoint is already a key of `m`, and the channels are pairwise
distinct and fresh with respect to `m`, then the loop succeeds, adds
exactly one entry per channel, and the final key set is the old key
set plus the channels. -/
theorem createPartToNameGo_spec :
    ∀ (pairs mapIdxSeq : List Nat) (m : List (Nat × String)),
      pairs.length = mapIdxSeq.length →
      pairs.length % 2 = 0 →
      (∀ x ∈ pairs, x ∈ mapKeys m) →
      mapIdxSeq.Nodup →
      (∀ c ∈ mapIdxSeq, c ∉ mapKeys m) →
      ∃ m', createPartToNameGo pairs mapIdxSeq m = some m' ∧
        m'.length = m.length + mapIdxSeq.length ∧
        (∀ x, x ∈ mapKeys m' ↔ x ∈ mapIdxSeq ∨ x ∈ mapKeys m)
  | [], ms, m, hlen, _, _, _, _ => by
    have hms : ms = [] := List.length_eq_zero.mp (by simpa using hlen.symm)
    subst hms
    exact ⟨m, rfl, by simp, by simp⟩
  | [_], _, _, _, heven, _, _, _ => by simp at heven
  | _ :: _ :: _, [], _, hlen, _, _, _, _ => by simp at hlen
  | _ :: _ :: _, [_], _, hlen, _, _, _, _ => by
    simp only [List.length_cons, List.length_nil] at hlen
    omega
  | a :: b :: ps, mA :: mB :: ms, m, hlen, heven, hmem, hnd, hfresh => by
    have ha : a ∈ mapKeys m := hmem a (by simp)
    have hb : b ∈ mapKeys m := hmem b (by simp)
    obtain ⟨nameA, hfa⟩ := mapFind?_of_mem m a ha
    obtain ⟨nameB, hfb⟩ := mapFind?_of_mem m b hb
    have ha1 : a ∈ mapKeys (mapInsert m mA (nameA ++ "->" ++ nameB ++ "(X)")) :=
      (mem_mapKeys_mapInsert ..).2 (Or.inr ha)
    have hb1 : b ∈ mapKeys (mapInsert m mA (nameA ++ "->" ++ nameB ++ "(X)")) :=
      (mem_mapKeys_mapInsert ..).2 (Or.inr hb)
    obtain ⟨nameA2, hfa2⟩ := mapFind?_of_mem _ a ha1
    obtain ⟨nameB2, hfb2⟩ := mapFind?_of_mem _ b hb1
    have hmAfresh : mA ∉ mapKeys m := hfresh mA (by simp)
    have hmBfresh : mB ∉ mapKeys m := hfresh mB (by simp)
    rw [List.nodup_cons] at hnd
    obtain ⟨hmAnotin, hnd'⟩ := hnd
    rw [List.nodup_cons] at hnd'
    obtain ⟨hmBnotin, hndms⟩ := hnd'
    have hABne : mA ≠ mB := fun h => hmAnotin (h ▸ List.mem_cons_self mB ms)
    have hmAms : mA ∉ ms := fun h => hmAnotin (List.mem_cons_of_mem _ h)
    have hmBfresh1 :
        mB ∉ mapKeys (mapInsert m mA (nameA ++ "->" ++ nameB ++ "(X)")) := by
      intro hmem1
      rcases (mem_mapKeys_mapInsert ..).1 hmem1 with h | h
      · exact hABne h.symm
      · exact hmBfresh h
    have hlen2 :
        (mapInsert (mapInsert m mA (nameA ++ "->" ++ nameB ++ "(X)")) mB
          (nameA2 ++ "->" ++ nameB2 ++ "(Y)")).length = m.length + 2 := by
      rw [length_mapInsert, if_neg hmBfresh1, length_mapInsert, if_neg hmAfresh]
    have hkeys2 : ∀ x,
        x ∈ mapKeys (mapInsert (mapInsert m mA (nameA ++ "->" ++ nameB ++ "(X)")) mB
          (nameA2 ++ "->" ++ nameB2 ++ "(Y)")) ↔
          x = mB ∨ x = mA ∨ x ∈ mapKeys m := by
      intro x
      rw [mem_mapKeys_mapInsert, mem_mapKeys_mapInsert]
    have hlen' : ps.length = ms.length := by
      simp only [List.length_cons] at hlen
      omega
    have heven' : ps.length % 2 = 0 := by
      simp only [List.length_cons] at heven
      omega
    have hmem' : ∀ x ∈ ps,
        x ∈ mapKeys (mapInsert (mapInsert m mA (nameA ++ "->" ++ nameB ++ "(X)")) mB
          (nameA2 ++ "->" ++ nameB2 ++ "(Y)")) := by
      intro x hx
      exact (hkeys2 x).2 (Or.inr (Or.inr (hmem x (by simp [hx]))))
    have hfresh' : ∀ c ∈ ms,
        c ∉ mapKeys (mapInsert (mapInsert m mA (nameA ++ "->" ++ nameB ++ "(X)")) mB
          (nameA2 ++ "->" ++ nameB2 ++ "(Y)")) := by
      intro c hc hcm
      rcases (hkeys2 c).1 hcm with h | h | h
      · exact hmBnotin (h ▸ hc)
      · exact hmAms (h ▸ hc)
      · exact hfresh c (by simp [hc]) h
    obtain ⟨m', hgo, hlenm, hkeysm⟩ :=
      createPartToNameGo_spec ps ms
        (mapInsert (mapInsert m mA (nameA ++ "->" ++ nameB ++ "(X)")) mB
          (nameA2 ++ "->" ++ nameB2 ++ "(Y)"))
        hlen' heven' hmem' hndms hfresh'
    refine ⟨m', ?_, ?_, ?_⟩
    · simp only [createPartToNameGo, hfa, hfb, hfa2, hfb2, hgo]
    · rw [hlenm, hlen2]
      simp only [List.length_cons]
      omega
    · intro x
      rw [hkeysm x, hkeys2 x]
      simp only [List.mem_cons]
      tauto

/-- C7 counterexample: on `pairTopology` — 2 part names, 1 limb pair,
fresh channels `2, 3` — the built table has 4 entries, not
`numberOfParts + numberOfLimbPairs = 2 + 1`: each limb pair contributes
two synthesized entries, so the correct count is
`numberOfParts + 2 * numberOfLimbPairs`. -/
theorem createPartToName_size_counterexample :
    (createPartToName pairTopology).2.length ≠ 2 + 1 ∧
    (createPartToName pairTopology).2.length = 2 + 2 * 1 := by decide

/-- C7 (amended): for a well-formed topology — equal even-length pair
and channel sequences, every limb endpoint a key of the part-name map,
channels pairwise distinct and disjoint from the part-name keys —
`createPartToName` reports no error and produces a table with exactly
`numberOfParts + 2 * numberOfLimbPairs` entries (each of the
`bodyPartPairs.length / 2` limb pairs contributes exactly 2 synthesized
entries beyond the base part names). -/
theorem createPartToName_size (t : PoseTopology)
    (hlen : t.bodyPartPairs.length = t.mapIdx.length)
    (heven : t.bodyPartPairs.length % 2 = 0)
    (hmem : ∀ x ∈ t.bodyPartPairs, x ∈ mapKeys t.partToName)
    (hnd : t.mapIdx.Nodup)
    (hfresh : ∀ c ∈ t.mapIdx, c ∉ mapKeys t.partToName) :
    (createPartToName t).1 = false ∧
    (createPartToName t).2.length =
      t.partToName.length + 2 * (t.bodyPartPairs.length / 2) := by
  obtain ⟨m', hgo, hlenm, _⟩ :=
    createPartToNameGo_spec t.bodyPartPairs t.mapIdx t.partToName
      hlen heven hmem hnd hfresh
  simp only [createPartToName, hgo]
  exact ⟨trivial, by omega⟩

/-- C7 witness: the amended size law on `pairTopology`
(2 parts + 2 × 1 limb pair = 4 entries, no error). -/
theorem createPartToName_size_witness :
    (createPartToName pairTopology).1 = false ∧
    (createPartToName pairTopology).2.length =
      pairTopology.partToName.length + 2 * (pairTopology.bodyPartPairs.length / 2) :=
  createPartToName_size pairTopology (by decide) (by decide) (by decide)
    (by decide) (by decide)

/-- C9: if at any loop iteration the lookup of a limb endpoint's part
name fails on the table built so far, the iteration yields the thrown
`std::out_of_range` (`none`), and any such failure makes
`createPartToName` signal the error (`error(...)` runs, first component
`true`) and return the empty table. -/
theorem createPartToName_missing_endpoint :
    (∀ (m : List (Nat × String)) (a b mA mB : Nat) (ps ms : List Nat),
      mapFind? m a = none ∨ mapFind? m b = none →
      createPartToNameGo (a :: b :: ps) (mA :: mB :: ms) m = none) ∧
    (∀ t : PoseTopology,
      createPartToNameGo t.bodyPartPairs t.mapIdx t.partToName = none →
      createPartToName t = (true, [])) := by
  constructor
  · intro m a b mA mB ps ms h
    rcases h with h | h
    · cases hfb : mapFind? m b <;> simp [createPartToNameGo, h, hfb]
    · cases hfa : mapFind? m a <;> simp [createPartToNameGo, h, hfa]
  · intro t h
    simp [createPartToName, h]

/-- C9 witness: a topology whose limb pair references the missing part
index 1 — the first iteration fails and the builder reports the error
and returns the empty table. -/
theorem createPartToName_missing_endpoint_witness :
    createPartToNameGo [0, 1] [2, 3] [(0, "a")] = none ∧
    createPartToName ⟨[(0, "a")], [0, 1], [2, 3]⟩ = (true, []) :=
  ⟨createPartToName_missing_endpoint.1 [(0, "a")] 0 1 2 3 [] []
      (Or.inr (by decide)),
    createPartToName_missing_endpoint.2 ⟨[(0, "a")], [0, 1], [2, 3]⟩ (by decide)⟩

end PoseRendererSpec
